import Mathlib

/-!
Verification of `src/portfolio/optimization.py` (MC1-P2: Optimize a portfolio).

The embedding works in exact arithmetic over `ℚ`. A price history is a list
of instrument columns (`prices.shape[1]` = number of columns = list length),
each column the instrument's adjusted closing price per date. Real-valued
square roots (used by the standard-deviation and the `sqrt(252)` factor of
the Sharpe ratio) are abstracted as an explicit function parameter `sq`,
since no claim depends on the value of a square root.

The helpers `get_portfolio_value` / `get_portfolio_stats` live in
`analysis.py` and `get_data` in `util.py`; both modules are imported by the
source file but are not present under `src/`, so they are modelled from the
spec (each such definition carries a `Modelled from the spec:` doc comment).
The constrained solver `scipy.optimize.minimize` is an external library; it
is abstracted as a `Solver` parameter receiving exactly the data the source
passes it (objective, initial guess, bounds, equality constraint) and
returning a result record with an iterate `x` and a convergence flag.
Console prints and plot calls in the source are recorded as an explicit
effect trace.
-/

/-- Effects performed by the source besides returning values: `print`
statements and the `plot_data` call. -/
inductive Effect where
  | consolePrint
  | plot
deriving Repr, DecidableEq, BEq

/-- Error taxonomy of the spec (section 7). The source never raises any of
these; operations are embedded with an `Except PortfolioError` codomain so
that claims about the taxonomy are statable, and the embedding of the source
always returns `Except.ok`. -/
inductive PortfolioError where
  | DimensionMismatch
  | InvalidPriceData
  | InsufficientData
  | DegenerateVolatility
  | EmptyPortfolio
  | OptimizationDidNotConverge
deriving Repr, DecidableEq, BEq

/-- Result record of `scipy.optimize.minimize`: the final iterate
`min_result.x` and the convergence flag `min_result.success`. -/
structure MinimizeResult where
  x : List ℚ
  success : Bool
deriving Repr, DecidableEq

/-- Abstract constrained solver, standing for `scipy.optimize.minimize`
applied with `method='SLSQP'`: it receives the objective, the initial
guess, the bounds list and the equality-constraint function, exactly the
data the source passes at lines 47-49. -/
def Solver : Type :=
  (List ℚ → ℚ) → List ℚ → List (ℚ × ℚ) → (List ℚ → ℚ) → MinimizeResult

/-- Modelled from the spec: `analysis.get_portfolio_value` is not under
`src/`. Per spec section 4.1, each instrument column is normalized by its
first-date price. An empty column stays empty. -/
def normalize_first (col : List ℚ) : List ℚ :=
  match col with
  | [] => []
  | p0 :: _ => col.map (fun p => p / p0)

/-- Modelled from the spec: pointwise (per-date) sum of the scaled
instrument series, the "sums across instruments for each date" step of
`computePortfolioValue`. Zero instruments give an empty series. -/
def sumSeries : List (List ℚ) → List ℚ
  | [] => []
  | [c] => c
  | c :: rest => List.zipWith (fun a b => a + b) c (sumSeries rest)

/-- Modelled from the spec: `analysis.get_portfolio_value` (imported by the
source, not under `src/`). Per spec section 4.1: normalize each instrument
series by its first-date price, scale by `start_val * allocs[i]`, and sum
across instruments for each date. -/
def get_portfolio_value (prices : List (List ℚ)) (allocs : List ℚ)
    (start_val : ℚ) : List ℚ :=
  sumSeries (List.zipWith
    (fun col a => (normalize_first col).map (fun x => x * a * start_val))
    prices allocs)

/-- Modelled from the spec: daily returns of a value series,
`dailyReturns[t] = v[t]/v[t-1] - 1` for `t = 1..n-1`. -/
def daily_returns (v : List ℚ) : List ℚ :=
  List.zipWith (fun prev cur => cur / prev - 1) v v.tail

/-- Modelled from the spec: arithmetic mean of a list of daily returns. -/
def mean (xs : List ℚ) : ℚ :=
  xs.sum / (xs.length : ℚ)

/-- Modelled from the spec: sample variance (ddof = 1), the documented
choice of spec section 4.1 for `dailyReturnVolatility` squared. -/
def sample_variance (xs : List ℚ) : ℚ :=
  (xs.map (fun x => (x - mean xs) ^ 2)).sum / ((xs.length : ℚ) - 1)

/-- The four summary statistics of spec section 3 (`PortfolioStats`). -/
structure PortfolioStats where
  cum_ret : ℚ
  avg_daily_ret : ℚ
  std_daily_ret : ℚ
  sharpe : ℚ
deriving Repr, DecidableEq

/-- Modelled from the spec: `analysis.get_portfolio_stats` (imported by the
source, not under `src/`). Per spec section 4.1, with the square root
abstracted as `sq`: cumulative return `v[last]/v[0] - 1`, mean daily
return, sample standard deviation of daily returns, and
`sharpe = sq(periods) * (avg - rf/periods) / stdev`. -/
def get_portfolio_stats (sq : ℚ → ℚ) (v : List ℚ) (rf : ℚ) (periods : ℚ) :
    PortfolioStats :=
  let dr := daily_returns v
  let avg := mean dr
  let vol := sq (sample_variance dr)
  { cum_ret := (v.getLastD 0) / (v.headD 0) - 1
    avg_daily_ret := avg
    std_daily_ret := vol
    sharpe := sq periods * (avg - rf / periods) / vol }

/-- Source function `sharpe_maximizer(allocs, prices)` (lines 10-28): portfolio value
of the allocation, then its statistics, returning the negated Sharpe ratio.
`analysis.py` calls use the defaults `start_val = 1`, `rf = 0`,
`periods = 252`. -/
def sharpe_maximizer (sq : ℚ → ℚ) (allocs : List ℚ)
    (prices : List (List ℚ)) : ℚ :=
  let port_val := get_portfolio_value prices allocs 1
  let stats := get_portfolio_stats sq port_val 0 252
  Neg.neg stats.sharpe

/-- Source expression `init_guess` of `find_optimal_allocations` (line 44):
`np.ones(n) * 1.0 / n`, the equally weighted portfolio. -/
def init_guess (n : Nat) : List ℚ :=
  List.replicate n (1 / (n : ℚ))

/-- Source expression `alloc_bounds` of `find_optimal_allocations` (line 45):
`[(0, prices.shape[1])] * 4` — the pair `(0, n)` replicated a hardcoded
4 times, independent of `n`. -/
def alloc_bounds (n : Nat) : List (ℚ × ℚ) :=
  List.replicate 4 (0, (n : ℚ))

/-- Source expression `alloc_constraint` of `find_optimal_allocations` (line 46): the equality
constraint `sum(x) - 1`. -/
def alloc_constraint (x : List ℚ) : ℚ :=
  x.sum - 1

/-- Source function `find_optimal_allocations(prices)` (lines 31-53): builds the
initial guess, bounds and constraint, invokes the solver on
`sharpe_maximizer`, prints the solver result (`print min_result`, line 51)
and returns `min_result.x` unconditionally. The source raises none of the
spec's errors, so the `Except` value is always `Except.ok`. -/
def find_optimal_allocations (solver : Solver) (sq : ℚ → ℚ)
    (prices : List (List ℚ)) :
    Except PortfolioError (List ℚ) × List Effect :=
  let n := prices.length
  let min_result :=
    solver (fun x => sharpe_maximizer sq x prices) (init_guess n)
      (alloc_bounds n) alloc_constraint
  (Except.ok min_result.x, [Effect.consolePrint])

/-- Modelled from the spec: `util.get_data` (imported by the source, not
under `src/`). Per the call-site comment "automatically adds SPY" and spec
`PriceDataProvider`: it returns one labelled column per symbol, prepending
the benchmark column `"SPY"` when it was not requested. `lookup` abstracts
the stored price series for the chosen date range. -/
def get_data (lookup : String → List ℚ) (symbols : List String) :
    List (String × List ℚ) :=
  let syms := if symbols.contains "SPY" then symbols else "SPY" :: symbols
  syms.map (fun s => (s, lookup s))

/-- Source expression `prices_all[symbols]` (line 63): label-based column selection of
a data frame, keeping exactly the requested columns in the requested
order. -/
def select_columns (df : List (String × List ℚ)) (symbols : List String) :
    List (String × List ℚ) :=
  symbols.map (fun s => (s, (df.lookup s).getD []))

/-- The instrument price columns handed to the optimizer by
`optimize_portfolio` (lines 59-64): load all data, select the portfolio
symbols, drop the labels. -/
def portfolio_cols (lookup : String → List ℚ) (symbols : List String) :
    List (List ℚ) :=
  (select_columns (get_data lookup symbols) symbols).map Prod.snd

/-- Source expression `allocs / np.sum(allocs)` (line 65): divide every component of
the raw solver output by the component sum, with no guard. -/
def normalize_allocs (a : List ℚ) : List ℚ :=
  a.map (fun x => x / a.sum)

/-- Spec-side guarded reading of the normalization at line 65, used to state
that the division is well-defined: it refuses a zero component sum and
otherwise performs the same division as `normalize_allocs`. -/
def normalize_allocs_guarded (a : List ℚ) : Option (List ℚ) :=
  if a.sum = 0 then none else some (a.map (fun x => x / a.sum))

/-- The values `optimize_portfolio` computes and reports (lines 64-81): the
normalized allocation and the statistics recomputed from it. -/
structure OptimizeReport where
  allocs : List ℚ
  stats : PortfolioStats
deriving Repr, DecidableEq

/-- Source function `optimize_portfolio(start_date, end_date, symbols)` (lines
56-88): load prices (the date range is folded into `lookup`), keep only the
portfolio symbols, run `find_optimal_allocations`, normalize the raw
allocation, recompute portfolio value and statistics from the normalized
allocation, print the eight report lines and plot against SPY. The Python
function returns `None`; the report record stands for the values it
computes and prints. -/
def optimize_portfolio (solver : Solver) (sq : ℚ → ℚ)
    (lookup : String → List ℚ) (symbols : List String) :
    Except PortfolioError OptimizeReport × List Effect :=
  let cols := portfolio_cols lookup symbols
  match find_optimal_allocations solver sq cols with
  | (Except.error e, effs) => (Except.error e, effs)
  | (Except.ok raw, effs) =>
      let allocs := normalize_allocs raw
      let port_val := get_portfolio_value cols allocs 1
      let stats := get_portfolio_stats sq port_val 0 252
      (Except.ok { allocs := allocs, stats := stats },
        effs ++ List.replicate 8 Effect.consolePrint ++ [Effect.plot])

/-- Tests whether an optimization outcome is the `EmptyPortfolio` failure. -/
def is_empty_portfolio_error : Except PortfolioError OptimizeReport → Bool
  | Except.error PortfolioError.EmptyPortfolio => true
  | _ => false

/-- Tests whether a `find_optimal_allocations` outcome is the
`OptimizationDidNotConverge` failure. -/
def is_nonconvergence_error : Except PortfolioError (List ℚ) → Bool
  | Except.error PortfolioError.OptimizationDidNotConverge => true
  | _ => false

/-- A solver instance that reports non-convergence while still carrying a
final iterate, as SLSQP does when it stops without meeting its tolerance. -/
def badSolver : Solver :=
  fun _ _ _ _ => { x := [2, 0, 0, 0], success := false }

/-- A solver instance that returns its initial guess and reports success. -/
def idSolver : Solver :=
  fun _ x0 _ _ => { x := x0, success := true }

/-- The two-instrument price history of the spec's end-to-end scenario
(section 8), as instrument columns. -/
def demoPrices : List (List ℚ) :=
  [[1, 51/50, 101/100, 21/20], [1, 99/100, 1, 49/50]]

/-- The raw iterate `min_result.x` produced inside `find_optimal_allocations`
during a run of `optimize_portfolio`, before the normalization of source
line 65. -/
def raw_solver_output (solver : Solver) (sq : ℚ → ℚ)
    (lookup : String → List ℚ) (symbols : List String) : List ℚ :=
  let cols := portfolio_cols lookup symbols
  (solver (fun x => sharpe_maximizer sq x cols) (init_guess cols.length)
    (alloc_bounds cols.length) alloc_constraint).x

/-- Helper: summing a list divided componentwise by a constant equals the
sum divided by that constant. -/
theorem sum_map_div (a : List ℚ) (c : ℚ) :
    (a.map (fun x => x / c)).sum = a.sum / c := by
  induction a with
  | nil => simp
  | cons x xs ih => simp [ih, add_div]

/-- Helper: a symbol requested by the caller is among the columns produced
by the data loader, whether or not SPY is prepended. -/
theorem mem_get_data_syms (symbols : List String) (s : String)
    (h : s ∈ symbols) :
    s ∈ (if symbols.contains "SPY" then symbols
         else "SPY" :: symbols) := by
  split
  · exact h
  · exact List.mem_cons_of_mem _ h

/-- Helper: looking up a key in an association list built by pairing each
key with its value finds exactly that value. -/
theorem lookup_map_self (f : String → List ℚ) (syms : List String)
    (s : String) (h : s ∈ syms) :
    List.lookup s (syms.map (fun t => (t, f t))) = some (f s) := by
  induction syms with
  | nil => exact absurd h (List.not_mem_nil s)
  | cons t ts ih =>
      by_cases hst : s = t
      · subst hst
        simp [List.lookup]
      · have hbeq : (s == t) = false := beq_eq_false_iff_ne.mpr hst
        have h2 : s ∈ ts := by
          rcases List.mem_cons.mp h with h1 | h2
          · exact absurd h1 hst
          · exact h2
        simpa [List.lookup, hbeq] using ih h2

/-- Claim C1: the claim states the bounds list has exactly N entries, one
per instrument, each `(0, N)`. Code evaluation at the failing input N = 3:
the source (line 45) hardcodes the replication count to 4, so the bounds
list has 4 entries — not 3 — while the initial guess correctly has 3. -/
theorem c1_bounds_list_hardcoded_to_four :
    (alloc_bounds 3).length = 4
    ∧ (init_guess 3).length = 3
    ∧ alloc_bounds 3 = [(0, 3), (0, 3), (0, 3), (0, 3)] := by
  refine ⟨rfl, rfl, ?_⟩
  simp [alloc_bounds, List.replicate]

/-- Claim C2, counterexample: a solver run that reports non-convergence
(`success = false`) still makes `find_optimal_allocations` return the
solver's iterate as a success value; no `OptimizationDidNotConverge`
failure is produced. -/
theorem c2_counterexample_nonconvergence_returns_iterate :
    (badSolver (fun x => sharpe_maximizer id x demoPrices) (init_guess 2)
        (alloc_bounds 2) alloc_constraint).success = false
    ∧ (find_optimal_allocations badSolver id demoPrices).1 =
        Except.ok [2, 0, 0, 0]
    ∧ is_nonconvergence_error
        (find_optimal_allocations badSolver id demoPrices).1 = false :=
  ⟨rfl, rfl, rfl⟩

/-- Claim C2, amended: `find_optimal_allocations` returns the solver's
iterate `min_result.x` as a success value unconditionally — regardless of
the solver's convergence flag — and surfaces no
`OptimizationDidNotConverge` failure. -/
theorem c2_amended_iterate_returned_unconditionally (solver : Solver)
    (sq : ℚ → ℚ) (prices : List (List ℚ)) :
    (find_optimal_allocations solver sq prices).1 =
      Except.ok (solver (fun x => sharpe_maximizer sq x prices)
        (init_guess prices.length) (alloc_bounds prices.length)
        alloc_constraint).x :=
  rfl

/-- Claim C3: in exact arithmetic, dividing a raw allocation vector by its
component sum (source line 65) yields a vector whose components sum to
exactly 1, whenever that sum is nonzero. -/
theorem c3_normalized_allocation_sums_to_one (a : List ℚ)
    (h : a.sum ≠ 0) : (normalize_allocs a).sum = 1 := by
  unfold normalize_allocs
  rw [sum_map_div, div_self h]

/-- Claim C3, witness at the concrete raw output `[3, 1]`. -/
theorem c3_witness :
    List.sum [(3 : ℚ), 1] ≠ 0 ∧ (normalize_allocs [(3 : ℚ), 1]).sum = 1 :=
  ⟨by norm_num, c3_normalized_allocation_sums_to_one [(3 : ℚ), 1]
    (by norm_num)⟩

/-- Claim C4: the objective handed to the minimizer equals the negated
Sharpe ratio of the statistics of the portfolio value series of the
candidate allocation, for every allocation, price history and square-root
realization. -/
theorem c4_objective_is_negated_sharpe (sq : ℚ → ℚ) (allocs : List ℚ)
    (prices : List (List ℚ)) :
    sharpe_maximizer sq allocs prices =
      -(get_portfolio_stats sq (get_portfolio_value prices allocs 1)
          0 252).sharpe :=
  rfl

/-- Claim C5: the final reported allocation and statistics are computed
from the normalized allocation (the raw solver output divided by its sum):
for every solver, square-root realization, data source and symbol list, the
report of `optimize_portfolio` carries `normalize_allocs raw` and the
statistics of the portfolio value recomputed at `normalize_allocs raw`,
where `raw` is the unnormalized solver output used during search. -/
theorem c5_stats_recomputed_from_normalized (solver : Solver) (sq : ℚ → ℚ)
    (lookup : String → List ℚ) (symbols : List String) :
    (optimize_portfolio solver sq lookup symbols).1 =
      Except.ok
        { allocs := normalize_allocs (raw_solver_output solver sq lookup
            symbols)
          stats := get_portfolio_stats sq
            (get_portfolio_value (portfolio_cols lookup symbols)
              (normalize_allocs (raw_solver_output solver sq lookup symbols))
              1) 0 252 } :=
  rfl

/-- Claim C6: code evaluation at the failing single-instrument input. For a
one-column price history the source still builds a 4-entry bounds list
(line 45) against a 1-entry initial guess, so the SLSQP call receives
mismatched dimensions instead of solving the trivial problem; had a raw
1-vector been produced, normalization would indeed give `[1]`. -/
theorem c6_single_instrument_bounds_mismatch :
    ([[(1 : ℚ), 51/50, 101/100, 21/20]] : List (List ℚ)).length = 1
    ∧ (init_guess 1).length = 1
    ∧ (alloc_bounds 1).length = 4
    ∧ normalize_allocs [(3 : ℚ)] = [1] := by
  refine ⟨rfl, rfl, rfl, ?_⟩
  norm_num [normalize_allocs]

/-- Claim C7, counterexample: running the pipeline on the empty symbol
list (zero instruments) with a benign solver produces a successful report,
not the `EmptyPortfolio` failure the claim requires. -/
theorem c7_counterexample_no_empty_portfolio_failure :
    is_empty_portfolio_error
      (optimize_portfolio idSolver id (fun _ => [1, 2]) []).1 = false :=
  rfl

/-- Claim C7, amended: the source performs no instrument-count validation
and defines no `EmptyPortfolio` error; for every symbol list — the empty
one included — `optimize_portfolio` returns a computed report as a success
value, never an `EmptyPortfolio` failure. -/
theorem c7_amended_no_validation_always_ok (solver : Solver) (sq : ℚ → ℚ)
    (lookup : String → List ℚ) (symbols : List String) :
    ∃ r, (optimize_portfolio solver sq lookup symbols).1 = Except.ok r :=
  ⟨_, rfl⟩

/-- Claim C8, counterexample: at a concrete input the optimizer's effect
trace is not empty — `find_optimal_allocations` prints the raw solver
result (line 51), and the `optimize_portfolio` pipeline ends with a plot
effect. -/
theorem c8_counterexample_optimizer_prints :
    (find_optimal_allocations idSolver id demoPrices).2 =
      [Effect.consolePrint]
    ∧ ((optimize_portfolio idSolver id (fun _ => [1, 2]) ["GOOG"]).2).contains
        Effect.plot = true :=
  ⟨rfl, rfl⟩

/-- Claim C8, amended: the objective `sharpe_maximizer` and the modelled
evaluator functions are pure, and results are returned as values, but
`find_optimal_allocations` always emits exactly one console print (the raw
solver result), and `optimize_portfolio` appends eight report prints and
one plot effect. -/
theorem c8_amended_effect_trace (solver : Solver) (sq : ℚ → ℚ)
    (lookup : String → List ℚ) (symbols : List String)
    (prices : List (List ℚ)) :
    (find_optimal_allocations solver sq prices).2 = [Effect.consolePrint]
    ∧ (optimize_portfolio solver sq lookup symbols).2 =
        Effect.consolePrint ::
          (List.replicate 8 Effect.consolePrint ++ [Effect.plot]) :=
  ⟨rfl, rfl⟩

/-- Claim C9: the unguarded division of source line 65 is well-defined
whenever the raw components sum to a nonzero value: the guarded reading of
the normalization never takes its zero-sum (division-by-zero) branch and
agrees with the unguarded code. -/
theorem c9_guarded_normalization_agrees (a : List ℚ) (h : a.sum ≠ 0) :
    normalize_allocs_guarded a = some (normalize_allocs a) := by
  unfold normalize_allocs_guarded normalize_allocs
  rw [if_neg h]

/-- Claim C9, witness at the concrete raw output `[2, -1]`. -/
theorem c9_witness :
    List.sum [(2 : ℚ), -1] ≠ 0
    ∧ normalize_allocs_guarded [(2 : ℚ), -1] =
        some (normalize_allocs [(2 : ℚ), -1]) :=
  ⟨by norm_num, c9_guarded_normalization_agrees [(2 : ℚ), -1] (by norm_num)⟩

/-- Claim C10: for every data source and requested symbol list, the labelled
price columns handed to the optimizer are exactly the requested symbols with
their series, in the requested order; the automatically added SPY column
survives only if SPY itself was requested. -/
theorem c10_optimizer_sees_exactly_requested_symbols
    (lookup : String → List ℚ) (symbols : List String) :
    select_columns (get_data lookup symbols) symbols =
      symbols.map (fun s => (s, lookup s)) := by
  unfold select_columns
  refine List.map_congr_left (fun s hs => ?_)
  have hfound : List.lookup s (get_data lookup symbols) = some (lookup s) := by
    unfold get_data
    exact lookup_map_self lookup _ s (mem_get_data_syms symbols s hs)
  rw [hfound]
  rfl
